import Mathlib

/-!
Shallow embedding of the Power-Solution repository (a marketing site for
ADU and solar installations) and proofs of its specification claims.

Embedded source files:
* `src/services/locationService.ts` — IP-geolocation lookup with fallback.
* `src/unnamed/part_000` — the `ADUSection` and `SolarSection` React
  components: regional table lookups, pricing display, consultation calls.

The modules `../types`, `../data/businessKnowledge` and
`../services/geminiService` are imported by the components but their source
is not part of the repository snapshot; where a claim depends on them they
are modelled from the spec (each such definition says so in its doc
comment).

Network effects are embedded by making each handler a function of the
outcome of its single network call: an invocation consumes exactly one
`FetchOutcome` / `GenOutcome` / `ConsultOutcome`, which captures "one HTTP
request per invocation" structurally.
-/

namespace PowerSolution

/-- JS truthiness-based defaulting `v || d` restricted to string-or-absent
values: a missing (`none`) or empty-string field is falsy, any other string
is truthy.  Embeds the `data.city || 'St. Catharines'` pattern of
`locationService.ts`. -/
def jsOrStr (v : Option String) (d : String) : String :=
  match v with
  | some s => if s = "" then d else s
  | none => d

/-- `UserLocation` from `../types`, with the exact fields constructed by
`detectLocation` in `src/services/locationService.ts` (city, region,
country, isDetected). -/
structure UserLocation where
  city : String
  region : String
  country : String
  isDetected : Bool
deriving Repr, DecidableEq

/-- The JSON payload of the `https://ipwho.is/` response, restricted to the
three fields `detectLocation` reads.  Each field is `Option String`:
`none` models an absent/undefined field, `some ""` an empty string (both
JS-falsy). -/
structure GeoPayload where
  city : Option String
  region_code : Option String
  country : Option String
deriving Repr, DecidableEq

/-- Outcome of the single `fetch('https://ipwho.is/')` call in
`detectLocation`: the fetch promise rejects, the response is not ok,
`response.json()` rejects, or the parsed payload is obtained. -/
inductive FetchOutcome where
  | fetchError
  | notOk
  | jsonError
  | ok (data : GeoPayload)
deriving Repr, DecidableEq

/-- Whether the fetch succeeded end to end (response ok and body parsed). -/
def FetchOutcome.success : FetchOutcome → Bool
  | .ok _ => true
  | _ => false

/-- The hardcoded fallback location returned by the catch branch of
`detectLocation` (`src/services/locationService.ts` lines 19-24). -/
def fallbackLocation : UserLocation :=
  { city := "St. Catharines", region := "ON", country := "Canada", isDetected := false }

/-- `detectLocation` from `src/services/locationService.ts`: one fetch; on
any failure (fetch rejection, `!response.ok`, JSON parse rejection) the
catch branch returns `fallbackLocation`; on success each field is defaulted
individually with `||` and `isDetected` is `true`. -/
def detectLocation : FetchOutcome → UserLocation
  | .ok data =>
      { city := jsOrStr data.city "St. Catharines"
        region := jsOrStr data.region_code "ON"
        country := jsOrStr data.country "Canada"
        isDetected := true }
  | _ => fallbackLocation

/-- One ADU pricing tier (rental estimate and base price strings).
Modelled from the spec: `../data/businessKnowledge` is not in the
repository snapshot; the spec glossary says the regional knowledge table
maps a region code to "pricing tiers and a policy URL", and the components
read `rentalEstimate` and `basePrice` of each tier. -/
structure PricingTier where
  rentalEstimate : String
  basePrice : String
deriving Repr, DecidableEq

/-- The three ADU pricing tiers of a region (`studio`, `oneBed`, `twoBed`),
as read by `rentalIncome`/`basePrice` in `ADUSection`.
Modelled from the spec: see `PricingTier`. -/
structure ADUPricing where
  studio : PricingTier
  oneBed : PricingTier
  twoBed : PricingTier
deriving Repr, DecidableEq

/-- One entry of the regional knowledge table: ADU pricing tiers and a
policy URL.  Modelled from the spec: "static mapping from a region code to
pricing tiers and a policy URL". -/
structure RegionEntry where
  aduPricing : ADUPricing
  policyUrl : String
deriving Repr, DecidableEq

/-- The regional knowledge table, as an association list from region code
to entry.  Modelled from the spec: `../data/businessKnowledge` is not in
the repository snapshot.  The spec fixes the fallback region code `ON`;
the components also mention `BC` and reference a `Default` entry
(`regionalKnowledge['Default']`), so the model carries those three keys.
The tier and URL strings are representative placeholder values. -/
def regionalKnowledge : List (String × RegionEntry) :=
  [ ("ON",
     { aduPricing :=
        { studio := { rentalEstimate := "$1,600 - $1,900", basePrice := "$189,000" }
          oneBed := { rentalEstimate := "$1,900 - $2,200", basePrice := "$229,000" }
          twoBed := { rentalEstimate := "$2,300 - $2,700", basePrice := "$289,000" } }
       policyUrl := "https://www.ontario.ca/page/add-second-unit-your-house" })
  , ("BC",
     { aduPricing :=
        { studio := { rentalEstimate := "$1,800 - $2,100", basePrice := "$199,000" }
          oneBed := { rentalEstimate := "$2,100 - $2,500", basePrice := "$239,000" }
          twoBed := { rentalEstimate := "$2,600 - $3,000", basePrice := "$299,000" } }
       policyUrl := "https://www2.gov.bc.ca/gov/content/housing-tenancy/secondary-suites" })
  , ("Default",
     { aduPricing :=
        { studio := { rentalEstimate := "$1,500 - $1,800", basePrice := "$185,000" }
          oneBed := { rentalEstimate := "$1,800 - $2,100", basePrice := "$225,000" }
          twoBed := { rentalEstimate := "$2,200 - $2,600", basePrice := "$285,000" } }
       policyUrl := "https://www.canada.ca/en/services/benefits/housing.html" }) ]

/-- JS property access `regionalKnowledge[k]`: `some` entry when the key is
present, `none` when the access yields `undefined`. -/
def lookupRK (k : String) : Option RegionEntry :=
  (regionalKnowledge.find? (fun p => p.1 = k)).map (fun p => p.2)

/-- JS membership test `k in regionalKnowledge`. -/
def hasKeyRK (k : String) : Bool :=
  regionalKnowledge.any (fun p => p.1 = k)

/-- `activeRegion` memo, identical in `ADUSection` (part_000 line 26-28)
and `SolarSection` (line 415-417):
`location.region in regionalKnowledge ? location.region : 'ON'`. -/
def activeRegion (location : UserLocation) : String :=
  if hasKeyRK location.region then location.region else "ON"

/-- The ids of the three size buttons of `ADUSection` (part_000 lines
224-228), which are the only values ever stored in `config.size`
(initial state is `'studio'`). -/
def sizeIds : List String := ["studio", "1-bedroom", "2-bedroom"]

/-- The `addons` record of `ADUConfig` (four booleans, as initialised in
`ADUSection`). -/
structure ADUAddons where
  energyIndependence : Bool
  smartSecurity : Bool
  carbonNeutral : Bool
  zonalComfort : Bool
deriving Repr, DecidableEq

/-- `ADUConfig` from `../types`, with the fields `ADUSection` initialises
and reads.  `size` is kept as a string (the runtime value of the button
ids) so that the `default:` branches of the source switches remain part of
the embedding. -/
structure ADUConfig where
  size : String
  intendedUse : String
  addons : ADUAddons
deriving Repr, DecidableEq

/-- `rentalIncome` memo of `ADUSection` (part_000 lines 30-38): select the
pricing of the active region, then switch on `config.size`.  The outer
`Option` models the JS property access `regionalKnowledge[activeRegion]`
(`none` = the access would throw on `undefined`). -/
def rentalIncome (config : ADUConfig) (activeRegion : String) : Option String :=
  (lookupRK activeRegion).map fun entry =>
    let pricing := entry.aduPricing
    match config.size with
    | "studio" => pricing.studio.rentalEstimate
    | "1-bedroom" => pricing.oneBed.rentalEstimate
    | "2-bedroom" => pricing.twoBed.rentalEstimate
    | _ => "$0"

/-- `basePrice` memo of `ADUSection` (part_000 lines 40-48). -/
def basePrice (config : ADUConfig) (activeRegion : String) : Option String :=
  (lookupRK activeRegion).map fun entry =>
    let pricing := entry.aduPricing
    match config.size with
    | "studio" => pricing.studio.basePrice
    | "1-bedroom" => pricing.oneBed.basePrice
    | "2-bedroom" => pricing.twoBed.basePrice
    | _ => "$0"

/-- `policyLink` memo, identical in `ADUSection` (lines 50-52) and
`SolarSection` (lines 419-421):
`(regionalKnowledge[activeRegion] || regionalKnowledge['Default']).policyUrl`.
`none` models the JS crash when both accesses yield `undefined`. -/
def policyLink (activeRegion : String) : Option String :=
  Option.map (fun entry => entry.policyUrl)
    (match lookupRK activeRegion with
     | some entry => some entry
     | none => lookupRK "Default")

/-- The tier of an `ADUPricing` selected by a size string, following the
case arms shared by `rentalIncome` and `basePrice`; `none` for an
unhandled size (the `default:` branch). -/
def tierOf (pricing : ADUPricing) (size : String) : Option PricingTier :=
  match size with
  | "studio" => some pricing.studio
  | "1-bedroom" => some pricing.oneBed
  | "2-bedroom" => some pricing.twoBed
  | _ => none

/-- `AIResponse` from `../types`.  Modelled from the spec: "a generated
text payload (summary, recommendations, cost range, ROI estimate)", the
four fields the components render and the commercial schema requires. -/
structure AIResponse where
  summary : String
  recommendations : List String
  estimatedCostRange : String
  roiEstimate : String
deriving Repr, DecidableEq

/-- The component-local state a consultation handler touches: the
`loading` flag, the `result` object (`none` is the initial `null`, whose
rendering is the default placeholder view), and the number of
`console.error` calls made so far (the log). -/
structure ConsultState where
  loading : Bool
  result : Option AIResponse
  errorLog : Nat
deriving Repr, DecidableEq

/-- The initial component state: `loading = false`, `result = null`
(default placeholder shown), nothing logged. -/
def initialConsultState : ConsultState :=
  { loading := false, result := none, errorLog := 0 }

/-- Outcome of one `getADUConsultation` / `getSolarConsultation` call
(their bodies live in `../services/geminiService`, outside the snapshot;
the claims only concern the caller's try/catch, so the call is abstracted
to its outcome): the promise rejects, or resolves with an `AIResponse`. -/
inductive ConsultOutcome where
  | throw
  | ok (res : AIResponse)
deriving Repr, DecidableEq

/-- `fetchSpecs` in the `ADUSection` effect (part_000 lines 54-67):
`setLoading(true)`, one awaited call; on success `setResult(res)`, on
rejection `console.error(err)` and `result` is left unchanged; `finally`
clears `loading`. -/
def fetchSpecs (st : ConsultState) (o : ConsultOutcome) : ConsultState :=
  match o with
  | .ok res => { st with loading := false, result := some res }
  | .throw => { st with loading := false, errorLog := st.errorLog + 1 }

/-- `handleResidentialConsult` in `SolarSection` (part_000 lines 423-433):
the same single-call try/catch/finally shape around
`getSolarConsultation`. -/
def handleResidentialConsult (st : ConsultState) (o : ConsultOutcome) : ConsultState :=
  match o with
  | .ok res => { st with loading := false, result := some res }
  | .throw => { st with loading := false, errorLog := st.errorLog + 1 }

/-- `CommercialNeeds` from `../types`, with the fields `SolarSection`
initialises and reads (`facilityType`, `squareFootage`, `primaryGoal`). -/
structure CommercialNeeds where
  facilityType : String
  squareFootage : Int
  primaryGoal : String
deriving Repr, DecidableEq

/-- `SolarNeeds` from `../types`, with the fields `SolarSection`
initialises (`monthlyBill`, `roofType`, `energyPriority`). -/
structure SolarNeeds where
  monthlyBill : Int
  roofType : String
  energyPriority : String
deriving Repr, DecidableEq

/-- A node of the `@google/genai` response schema (`Type.STRING`,
`Type.ARRAY` with its `items`, `Type.OBJECT` with `properties` and
`required`), as used in `handleCommercialConsult`. -/
inductive SchemaType where
  | STRING
  | ARRAY (items : SchemaType)
  | OBJECT (properties : List (String × SchemaType)) (required : List String)

/-- The request `handleCommercialConsult` passes to
`ai.models.generateContent` (part_000 lines 448-464): model id, prompt
contents, response MIME type, response schema. -/
structure GenRequest where
  model : String
  contents : String
  responseMimeType : String
  responseSchema : SchemaType

/-- The prompt template literal of `handleCommercialConsult` (part_000
lines 438-446), interpolating `location.city`, `location.region`,
`comNeeds.facilityType`, `comNeeds.squareFootage` and
`comNeeds.primaryGoal` (a JS number interpolates as its decimal string). -/
def commercialPrompt (location : UserLocation) (comNeeds : CommercialNeeds) : String :=
  "Act as an expert Commercial Solar Analyst for Power Solution Canada.\n      Location: "
    ++ location.city ++ ", " ++ location.region
    ++ ".\n      Facility: " ++ comNeeds.facilityType ++ ", "
    ++ toString comNeeds.squareFootage
    ++ " sqft.\n      Goal: " ++ comNeeds.primaryGoal
    ++ ".\n      \n      Generate a professional commercial solar infrastructure brief.\n      - 5 high-impact \"Core Specifications\" (concise, max 12 words each).\n      - Include mentions of Net-metering, industrial-grade panels, and business energy grants.\n      - Return exactly: summary, recommendations[], estimatedCostRange, and roiEstimate."

/-- The `generateContent` request built by `handleCommercialConsult`
(part_000 lines 448-464): fixed model, the prompt, JSON MIME type, and the
object schema with the four properties and the four required field
names. -/
def commercialRequest (location : UserLocation) (comNeeds : CommercialNeeds) : GenRequest :=
  { model := "gemini-3-flash-preview"
    contents := commercialPrompt location comNeeds
    responseMimeType := "application/json"
    responseSchema :=
      .OBJECT
        [ ("summary", .STRING)
        , ("recommendations", .ARRAY .STRING)
        , ("estimatedCostRange", .STRING)
        , ("roiEstimate", .STRING) ]
        ["summary", "recommendations", "estimatedCostRange", "roiEstimate"] }

/-- The `required` field names of a schema node (empty for non-objects). -/
def SchemaType.requiredFields : SchemaType → List String
  | .OBJECT _ required => required
  | _ => []

/-- The declared property names of a schema node (empty for non-objects). -/
def SchemaType.propertyNames : SchemaType → List String
  | .OBJECT properties _ => properties.map (fun p => p.1)
  | _ => []

/-- Outcome of the single `ai.models.generateContent` call: the promise
rejects, or resolves with a response whose `text` is given. -/
inductive GenOutcome where
  | throw
  | ok (text : String)
deriving Repr, DecidableEq

/-- `handleCommercialConsult` in `SolarSection` (part_000 lines 435-471):
returns the request it issues together with the state after the
try/catch/finally.  `parse` is `JSON.parse` specialised to the response
text (`none` models a parse exception, which the same catch handles):
on success `setResult(JSON.parse(response.text))`, on any exception
`console.error(err)` with `result` unchanged; `finally` clears
`loading`. -/
def handleCommercialConsult (parse : String → Option AIResponse)
    (location : UserLocation) (comNeeds : CommercialNeeds)
    (st : ConsultState) (o : GenOutcome) : GenRequest × ConsultState :=
  (commercialRequest location comNeeds,
   match o with
   | .ok text =>
       match parse text with
       | some res => { st with loading := false, result := some res }
       | none => { st with loading := false, errorLog := st.errorLog + 1 }
   | .throw => { st with loading := false, errorLog := st.errorLog + 1 })

/-- JS `parseInt` on the value of a number input, modelled for decimal
text: skip leading whitespace, read an optional sign and then the longest
prefix of decimal digits; `none` models `NaN` (no digits found). -/
def jsParseInt (s : String) : Option Int :=
  let cs := s.toList.dropWhile (fun c => c = ' ' ∨ c = '\t' ∨ c = '\n' ∨ c = '\r')
  let signDigits : Int × List Char :=
    match cs with
    | '-' :: rest => (-1, rest)
    | '+' :: rest => (1, rest)
    | rest => (1, rest)
  let digits := signDigits.2.takeWhile Char.isDigit
  if digits.isEmpty then none
  else some (signDigits.1 * (digits.foldl (fun acc c => acc * 10 + (c.toNat - '0'.toNat)) 0 : Nat))

/-- JS `v || 0` on a number that may be `NaN` (`none`): falsy `NaN` and
`0` both give `0`. -/
def jsOrZero (v : Option Int) : Int :=
  match v with
  | some n => if n = 0 then 0 else n
  | none => 0

/-- The `onChange` handler of the monthly-bill number input (part_000
lines 509-514): the stored `monthlyBill` is `parseInt(e.target.value) || 0`. -/
def monthlyBillOnChange (text : String) : Int :=
  jsOrZero (jsParseInt text)

/-- The `onChange` handler of the square-footage number input (part_000
lines 568-573): the stored `squareFootage` is `parseInt(e.target.value) || 0`. -/
def squareFootageOnChange (text : String) : Int :=
  jsOrZero (jsParseInt text)

/-- JS `String.prototype.trim`: strip whitespace from both ends. -/
def jsTrim (s : String) : String :=
  String.mk (((s.toList.dropWhile Char.isWhitespace).reverse.dropWhile
    Char.isWhitespace).reverse)

/-- JS `String.prototype.split` with a one-character separator, on the
character list of the string: always returns at least one part, empty
parts included. -/
def jsSplit (sep : Char) : List Char → List (List Char)
  | [] => [[]]
  | c :: cs =>
      if c = sep then [] :: jsSplit sep cs
      else
        match jsSplit sep cs with
        | t :: ts => (c :: t) :: ts
        | [] => [[c]]

/-- The rendering produced by `renderRentalPrice`: either the two-line
range display (`parts[0].trim()` and `parts[1].trim()`) or the verbatim
single price. -/
inductive RenderedPrice where
  | range (low high : String)
  | single (price : String)
deriving Repr, DecidableEq

/-- `renderRentalPrice` in `ADUSection` (part_000 lines 153-172), reduced
to the data it renders: when the price contains `'-'` it is split on `'-'`
and the trimmed `parts[0]` and `parts[1]` are shown; otherwise the price
is shown verbatim. -/
def renderRentalPrice (price : String) : RenderedPrice :=
  if price.toList.contains '-' then
    let parts := jsSplit '-' price.toList
    .range (jsTrim (String.mk (parts.headD []))) (jsTrim (String.mk ((parts.drop 1).headD [])))
  else
    .single price

/-! ## Helper lemmas -/

/-- Defaulting with a nonempty default always yields a nonempty string. -/
theorem jsOrStr_ne_empty (v : Option String) (d : String) (hd : d ≠ "") :
    jsOrStr v d ≠ "" := by
  cases v with
  | none => simpa [jsOrStr] using hd
  | some s =>
      by_cases h : s = "" <;> simp [jsOrStr, h, hd]

/-- `any` agrees with `find?` succeeding, for any predicate. -/
theorem list_any_eq_find_isSome {α : Type} (p : α → Bool) (l : List α) :
    l.any p = (l.find? p).isSome := by
  induction l with
  | nil => rfl
  | cons x xs ih =>
      by_cases h : p x <;> simp [List.any_cons, List.find?, h, ih]

/-- The JS `in` test succeeds exactly when the property access succeeds. -/
theorem hasKeyRK_eq_isSome (k : String) :
    hasKeyRK k = (lookupRK k).isSome := by
  unfold hasKeyRK lookupRK
  rw [list_any_eq_find_isSome]
  cases regionalKnowledge.find? (fun p => p.1 = k) <;> rfl

/-- The fallback region code `ON` is a key of the regional table. -/
theorem lookupRK_ON_isSome : (lookupRK "ON").isSome = true := by
  rfl

/-- The active region is always a key of the regional table. -/
theorem lookupRK_activeRegion_isSome (l : UserLocation) :
    (lookupRK (activeRegion l)).isSome = true := by
  unfold activeRegion
  cases h : hasKeyRK l.region with
  | true =>
      rw [hasKeyRK_eq_isSome] at h
      simp [h]
  | false =>
      simp [h, lookupRK_ON_isSome]

/-- A JS split always has at least one part. -/
theorem jsSplit_ne_nil (sep : Char) (l : List Char) : jsSplit sep l ≠ [] := by
  induction l with
  | nil => simp [jsSplit]
  | cons c cs ih =>
      by_cases h : c = sep
      · simp [jsSplit, h]
      · simp only [jsSplit, h, if_false]
        cases hs : jsSplit sep cs <;> simp

/-- `parts[0]` of a JS split is the longest separator-free prefix. -/
theorem jsSplit_headD (sep : Char) (l : List Char) :
    (jsSplit sep l).headD [] = l.takeWhile (fun c => c != sep) := by
  induction l with
  | nil => rfl
  | cons c cs ih =>
      by_cases h : c = sep
      · subst h
        simp [jsSplit, List.takeWhile_cons]
      · simp only [jsSplit, h, if_false]
        cases hs : jsSplit sep cs with
        | nil => exact absurd hs (jsSplit_ne_nil sep cs)
        | cons t ts =>
            rw [hs] at ih
            simp only [List.headD_cons] at ih
            simp [List.takeWhile_cons, h, ← ih]

/-- `parts[1]` of a JS split is the separator-free run that follows the
first separator. -/
theorem jsSplit_secondD (sep : Char) (l : List Char) (h : sep ∈ l) :
    ((jsSplit sep l).drop 1).headD [] =
      ((l.dropWhile (fun c => c != sep)).drop 1).takeWhile (fun c => c != sep) := by
  induction l with
  | nil => cases h
  | cons c cs ih =>
      by_cases hc : c = sep
      · subst hc
        have h1 : jsSplit c (c :: cs) = [] :: jsSplit c cs := by
          simp [jsSplit]
        have h2 : (c :: cs).dropWhile (fun x => x != c) = c :: cs := by
          rw [List.dropWhile_cons]
          simp
        rw [h1, h2]
        simp only [List.drop_succ_cons, List.drop_zero]
        exact jsSplit_headD c cs
      · have hmem : sep ∈ cs := by
          rcases List.mem_cons.mp h with h1 | h1
          · exact absurd h1.symm hc
          · exact h1
        simp only [jsSplit, hc, if_false]
        cases hs : jsSplit sep cs with
        | nil => exact absurd hs (jsSplit_ne_nil sep cs)
        | cons t ts =>
            have ih2 := ih hmem
            rw [hs] at ih2
            have hdw : (c :: cs).dropWhile (fun x => x != sep) =
                cs.dropWhile (fun x => x != sep) := by
              rw [List.dropWhile_cons]
              simp [hc]
            rw [hdw]
            simpa using ih2

/-! ## Claim theorems -/

/-- C1: `detectLocation` is a total function of the outcome of its single
HTTP request (it never rejects); whenever the request throws, the response
is not ok, or the body cannot be parsed, it returns the hardcoded fallback
location (St. Catharines / ON / Canada) with `isDetected = false`, and
`isDetected` is `true` exactly when the call succeeded. -/
theorem detectLocation_one_call_never_rejects (o : FetchOutcome) :
    (o.success = false → detectLocation o = fallbackLocation) ∧
    (detectLocation o).isDetected = o.success := by
  cases o <;> simp [detectLocation, FetchOutcome.success, fallbackLocation]

theorem detectLocation_one_call_never_rejects_witness :
    detectLocation FetchOutcome.notOk = fallbackLocation :=
  (detectLocation_one_call_never_rejects FetchOutcome.notOk).1 rfl

/-- C9: on a successful geolocation response, `detectLocation` defaults
each falsy field individually (city → St. Catharines, region_code → ON,
country → Canada) while keeping `isDetected = true`, so every field of the
returned location is a non-empty string. -/
theorem detectLocation_success_per_field_defaults (data : GeoPayload) :
    (detectLocation (.ok data)).isDetected = true ∧
    (detectLocation (.ok data)).city ≠ "" ∧
    (detectLocation (.ok data)).region ≠ "" ∧
    (detectLocation (.ok data)).country ≠ "" ∧
    ((data.city = none ∨ data.city = some "") →
      (detectLocation (.ok data)).city = "St. Catharines") ∧
    ((data.region_code = none ∨ data.region_code = some "") →
      (detectLocation (.ok data)).region = "ON") ∧
    ((data.country = none ∨ data.country = some "") →
      (detectLocation (.ok data)).country = "Canada") := by
  refine ⟨rfl, ?_, ?_, ?_, ?_, ?_, ?_⟩
  · exact jsOrStr_ne_empty data.city "St. Catharines" (by decide)
  · exact jsOrStr_ne_empty data.region_code "ON" (by decide)
  · exact jsOrStr_ne_empty data.country "Canada" (by decide)
  · rintro (h | h) <;> simp [detectLocation, jsOrStr, h]
  · rintro (h | h) <;> simp [detectLocation, jsOrStr, h]
  · rintro (h | h) <;> simp [detectLocation, jsOrStr, h]

theorem detectLocation_success_per_field_defaults_witness :
    (detectLocation (.ok ⟨none, some "", some "Peru"⟩)).isDetected = true ∧
    (detectLocation (.ok ⟨none, some "", some "Peru"⟩)).city = "St. Catharines" ∧
    (detectLocation (.ok ⟨none, some "", some "Peru"⟩)).region = "ON" ∧
    (detectLocation (.ok ⟨none, some "", some "Peru"⟩)).country ≠ "" := by
  have h := detectLocation_success_per_field_defaults ⟨none, some "", some "Peru"⟩
  exact ⟨h.1, h.2.2.2.2.1 (Or.inl rfl), h.2.2.2.2.2.1 (Or.inr rfl), h.2.2.2.1⟩

/-- C2: every operation is one best-effort call with a static fallback.
When its single call fails, each operation catches the error, logs it
(the error log grows by one), and displays a default: `detectLocation`
returns the hardcoded fallback location, and each consultation handler
leaves `result` unchanged — in particular, run from the initial state the
default placeholder (`result = none`) is still shown — while `finally`
clears the loading flag. -/
theorem operations_catch_log_and_default (st : ConsultState)
    (parse : String → Option AIResponse) (location : UserLocation)
    (comNeeds : CommercialNeeds) (o : FetchOutcome) (ho : o.success = false) :
    detectLocation o = fallbackLocation ∧
    fetchSpecs st .throw =
      { st with loading := false, errorLog := st.errorLog + 1 } ∧
    handleResidentialConsult st .throw =
      { st with loading := false, errorLog := st.errorLog + 1 } ∧
    (handleCommercialConsult parse location comNeeds st .throw).2 =
      { st with loading := false, errorLog := st.errorLog + 1 } ∧
    (fetchSpecs initialConsultState .throw).result = none ∧
    (handleCommercialConsult parse location comNeeds initialConsultState .throw).2.result = none := by
  refine ⟨?_, rfl, rfl, rfl, rfl, rfl⟩
  cases o with
  | ok data => simp [FetchOutcome.success] at ho
  | fetchError => rfl
  | notOk => rfl
  | jsonError => rfl

theorem operations_catch_log_and_default_witness :
    detectLocation FetchOutcome.jsonError = fallbackLocation ∧
    (fetchSpecs initialConsultState .throw).errorLog = 1 ∧
    (fetchSpecs initialConsultState .throw).result = none := by
  have h := operations_catch_log_and_default initialConsultState (fun _ => none)
    fallbackLocation ⟨"industrial", 15000, "cost-reduction"⟩ FetchOutcome.jsonError rfl
  exact ⟨h.1, by rw [h.2.1]; rfl, h.2.2.2.2.1⟩

/-- C5: the commercial consultation prompt is pure string-template
interpolation of exactly `location.city`, `location.region`,
`facilityType`, `squareFootage` and `primaryGoal`: any two inputs agreeing
on those five values (whatever their other fields) produce the identical
prompt string. -/
theorem commercialPrompt_determined_by_inputs (l1 l2 : UserLocation)
    (n1 n2 : CommercialNeeds) (hcity : l1.city = l2.city)
    (hregion : l1.region = l2.region)
    (hfac : n1.facilityType = n2.facilityType)
    (hsq : n1.squareFootage = n2.squareFootage)
    (hgoal : n1.primaryGoal = n2.primaryGoal) :
    commercialPrompt l1 n1 = commercialPrompt l2 n2 := by
  simp [commercialPrompt, hcity, hregion, hfac, hsq, hgoal]

theorem commercialPrompt_determined_by_inputs_witness :
    commercialPrompt ⟨"Toronto", "ON", "Canada", true⟩ ⟨"office", 8000, "sustainability"⟩ =
      commercialPrompt ⟨"Toronto", "ON", "Mexico", false⟩ ⟨"office", 8000, "sustainability"⟩ :=
  commercialPrompt_determined_by_inputs ⟨"Toronto", "ON", "Canada", true⟩
    ⟨"Toronto", "ON", "Mexico", false⟩ ⟨"office", 8000, "sustainability"⟩
    ⟨"office", 8000, "sustainability"⟩ rfl rfl rfl rfl rfl

/-- C10: for every text entered in the monthly-bill or square-footage
number input, the stored value is `parseInt` of the text when that parses
to a truthy (non-zero, non-NaN) number, and `0` otherwise; the stored
integer is in particular never NaN. -/
theorem number_input_onChange_never_nan (text : String) :
    (∀ n : Int, jsParseInt text = some n → n ≠ 0 →
      monthlyBillOnChange text = n ∧ squareFootageOnChange text = n) ∧
    ((jsParseInt text = none ∨ jsParseInt text = some 0) →
      monthlyBillOnChange text = 0 ∧ squareFootageOnChange text = 0) := by
  constructor
  · intro n hn hnz
    constructor <;> simp [monthlyBillOnChange, squareFootageOnChange, jsOrZero, hn, hnz]
  · rintro (h | h) <;>
      constructor <;> simp [monthlyBillOnChange, squareFootageOnChange, jsOrZero, h]

theorem number_input_onChange_never_nan_witness :
    monthlyBillOnChange "250" = 250 ∧ squareFootageOnChange "" = 0 := by
  refine ⟨((number_input_onChange_never_nan "250").1 250 (by decide) (by decide)).1, ?_⟩
  exact ((number_input_onChange_never_nan "").2 (Or.inl (by decide))).2

/-- C4: every commercial consultation issues one `generateContent` call
(the handler consumes exactly one call outcome and always returns the
request it issued); that request fixes `responseMimeType` to
`application/json` and a response schema whose required fields and
property names are exactly `summary`, `recommendations`,
`estimatedCostRange`, `roiEstimate`; and the displayed result object is
the JSON parse of the response text. -/
theorem handleCommercialConsult_request_and_result
    (parse : String → Option AIResponse) (location : UserLocation)
    (comNeeds : CommercialNeeds) (st : ConsultState) (o : GenOutcome)
    (text : String) (res : AIResponse) (hp : parse text = some res) :
    (handleCommercialConsult parse location comNeeds st o).1 =
      commercialRequest location comNeeds ∧
    (commercialRequest location comNeeds).responseMimeType = "application/json" ∧
    (commercialRequest location comNeeds).responseSchema.requiredFields =
      ["summary", "recommendations", "estimatedCostRange", "roiEstimate"] ∧
    (commercialRequest location comNeeds).responseSchema.propertyNames =
      ["summary", "recommendations", "estimatedCostRange", "roiEstimate"] ∧
    (handleCommercialConsult parse location comNeeds st (.ok text)).2.result = some res := by
  refine ⟨rfl, rfl, rfl, rfl, ?_⟩
  simp [handleCommercialConsult, hp]

theorem handleCommercialConsult_request_and_result_witness :
    ((handleCommercialConsult (fun _ => some ⟨"s", ["r"], "c", "roi"⟩)
        fallbackLocation ⟨"retail", 4000, "resilience"⟩ initialConsultState
        (.ok "{}")).2.result = some ⟨"s", ["r"], "c", "roi"⟩) ∧
    (commercialRequest fallbackLocation ⟨"retail", 4000, "resilience"⟩).responseMimeType =
      "application/json" := by
  have h := handleCommercialConsult_request_and_result
    (fun _ => some ⟨"s", ["r"], "c", "roi"⟩) fallbackLocation
    ⟨"retail", 4000, "resilience"⟩ initialConsultState (.ok "{}") "{}"
    ⟨"s", ["r"], "c", "roi"⟩ rfl
  exact ⟨h.2.2.2.2, h.2.1⟩

/-- C3: the active region equals `location.region` when that code is a key
of the regional knowledge table and the fallback `ON` otherwise, and the
policy URL and pricing tiers displayed are exactly those of the table
entry selected by the active region. -/
theorem activeRegion_selects_table_entry (l : UserLocation) :
    (hasKeyRK l.region = true → activeRegion l = l.region) ∧
    (hasKeyRK l.region = false → activeRegion l = "ON") ∧
    ∃ e : RegionEntry, lookupRK (activeRegion l) = some e ∧
      policyLink (activeRegion l) = some e.policyUrl ∧
      ∀ config : ADUConfig,
        rentalIncome config (activeRegion l) =
          some ((tierOf e.aduPricing config.size).elim "$0" (fun t => t.rentalEstimate)) ∧
        basePrice config (activeRegion l) =
          some ((tierOf e.aduPricing config.size).elim "$0" (fun t => t.basePrice)) := by
  refine ⟨fun h => by simp [activeRegion, h], fun h => by simp [activeRegion, h], ?_⟩
  obtain ⟨e, he⟩ := Option.isSome_iff_exists.mp (lookupRK_activeRegion_isSome l)
  refine ⟨e, he, by simp [policyLink, he], fun config => ?_⟩
  constructor <;>
    · simp only [rentalIncome, basePrice, he, Option.map_some, Option.some.injEq]
      simp only [tierOf]
      split <;> simp_all [tierOf]

theorem activeRegion_selects_table_entry_witness :
    activeRegion fallbackLocation = "ON" ∧
    ∃ e : RegionEntry, lookupRK "ON" = some e ∧ policyLink "ON" = some e.policyUrl := by
  have h := activeRegion_selects_table_entry fallbackLocation
  have hon : activeRegion fallbackLocation = "ON" := h.1 rfl
  obtain ⟨e, he, hpol, _⟩ := h.2.2
  rw [hon] at he hpol
  exact ⟨hon, e, he, hpol⟩

/-- C6: for every region with a table entry, the displayed monthly rental
income and base project estimate are the `rentalEstimate` and `basePrice`
of the tier selected by the chosen unit size (`studio` → studio,
`1-bedroom` → oneBed, `2-bedroom` → twoBed), and both depend only on
`config.size` and the active region: two configs agreeing on `size`
(whatever their add-ons or intended use) display the same values. -/
theorem pricing_by_size_independent_of_addons (config other : ADUConfig)
    (region : String) (e : RegionEntry) (he : lookupRK region = some e)
    (hsize : config.size = other.size) :
    (config.size = "studio" →
      rentalIncome config region = some e.aduPricing.studio.rentalEstimate ∧
      basePrice config region = some e.aduPricing.studio.basePrice) ∧
    (config.size = "1-bedroom" →
      rentalIncome config region = some e.aduPricing.oneBed.rentalEstimate ∧
      basePrice config region = some e.aduPricing.oneBed.basePrice) ∧
    (config.size = "2-bedroom" →
      rentalIncome config region = some e.aduPricing.twoBed.rentalEstimate ∧
      basePrice config region = some e.aduPricing.twoBed.basePrice) ∧
    rentalIncome config region = rentalIncome other region ∧
    basePrice config region = basePrice other region := by
  refine ⟨fun h => ⟨?_, ?_⟩, fun h => ⟨?_, ?_⟩, fun h => ⟨?_, ?_⟩, ?_, ?_⟩
  · simp [rentalIncome, he, h]
  · simp [basePrice, he, h]
  · simp [rentalIncome, he, h]
  · simp [basePrice, he, h]
  · simp [rentalIncome, he, h]
  · simp [basePrice, he, h]
  · simp [rentalIncome, he, ← hsize]
  · simp [basePrice, he, ← hsize]

theorem pricing_by_size_independent_of_addons_witness :
    ∃ e : RegionEntry, lookupRK "BC" = some e ∧
      rentalIncome ⟨"studio", "rental", ⟨true, true, true, true⟩⟩ "BC" =
        some e.aduPricing.studio.rentalEstimate ∧
      rentalIncome ⟨"studio", "rental", ⟨true, true, true, true⟩⟩ "BC" =
        rentalIncome ⟨"studio", "office", ⟨false, false, false, false⟩⟩ "BC" := by
  obtain ⟨e, he⟩ := Option.isSome_iff_exists.mp (show (lookupRK "BC").isSome = true from rfl)
  have h := pricing_by_size_independent_of_addons
    ⟨"studio", "rental", ⟨true, true, true, true⟩⟩
    ⟨"studio", "office", ⟨false, false, false, false⟩⟩ "BC" e he rfl
  exact ⟨e, he, (h.1 rfl).1, h.2.2.2.1⟩

/-- C8: the error branches of the ADU pricing lookups are unreachable:
the active region is always a key of the regional table, so the
`regionalKnowledge['Default']` fallback of `policyLink` is never taken
(the URL comes from the active region's own entry), and for the three
size values the component can store, the size switch always hits a real
tier, so the `default: return '$0'` branches of `rentalIncome` and
`basePrice` are never taken. -/
theorem adu_default_branches_unreachable (l : UserLocation)
    (config : ADUConfig) (hsize : config.size ∈ sizeIds) :
    ∃ e t, lookupRK (activeRegion l) = some e ∧
      policyLink (activeRegion l) = some e.policyUrl ∧
      tierOf e.aduPricing config.size = some t ∧
      rentalIncome config (activeRegion l) = some t.rentalEstimate ∧
      basePrice config (activeRegion l) = some t.basePrice := by
  obtain ⟨e, he⟩ := Option.isSome_iff_exists.mp (lookupRK_activeRegion_isSome l)
  simp only [sizeIds, List.mem_cons, List.mem_singleton, List.not_mem_nil, or_false] at hsize
  rcases hsize with h | h | h
  · exact ⟨e, e.aduPricing.studio, he, by simp [policyLink, he], by simp [tierOf, h],
      by simp [rentalIncome, he, h], by simp [basePrice, he, h]⟩
  · exact ⟨e, e.aduPricing.oneBed, he, by simp [policyLink, he], by simp [tierOf, h],
      by simp [rentalIncome, he, h], by simp [basePrice, he, h]⟩
  · exact ⟨e, e.aduPricing.twoBed, he, by simp [policyLink, he], by simp [tierOf, h],
      by simp [rentalIncome, he, h], by simp [basePrice, he, h]⟩

/-- C7: `renderRentalPrice` does only string formatting: a price
containing `'-'` is rendered as two values — the trimmed substring before
the first `'-'` and the trimmed substring between the first and second
`'-'` (text after a second `'-'` is dropped, since the run stops at the
next separator) — and a price without `'-'` is rendered verbatim. -/
theorem renderRentalPrice_formats_range (price : String) :
    (price.toList.contains '-' = true →
      renderRentalPrice price =
        .range (jsTrim (String.mk (price.toList.takeWhile (fun c => c != '-'))))
          (jsTrim (String.mk (((price.toList.dropWhile (fun c => c != '-')).drop 1).takeWhile
            (fun c => c != '-'))))) ∧
    (price.toList.contains '-' = false → renderRentalPrice price = .single price) := by
  constructor
  · intro h
    have hmem : '-' ∈ price.toList := by simpa using h
    simp only [renderRentalPrice, h, if_true]
    rw [jsSplit_headD, jsSplit_secondD _ _ hmem]
  · intro h
    have hnm : ¬ ('-' ∈ price.toList) := by
      intro hm
      have hc : price.toList.contains '-' = true := by simpa using hm
      rw [h] at hc
      cases hc
    unfold renderRentalPrice
    rw [if_neg (by simpa using hnm)]

theorem renderRentalPrice_formats_range_witness :
    renderRentalPrice "$1,600 - $1,900" = .range "$1,600" "$1,900" ∧
    renderRentalPrice "Contact us" = .single "Contact us" := by
  constructor
  · rw [(renderRentalPrice_formats_range "$1,600 - $1,900").1 (by decide)]
    decide
  · exact (renderRentalPrice_formats_range "Contact us").2 (by decide)

theorem adu_default_branches_unreachable_witness :
    ∃ e t, lookupRK (activeRegion ⟨"Lima", "PE", "Peru", true⟩) = some e ∧
      policyLink (activeRegion ⟨"Lima", "PE", "Peru", true⟩) = some e.policyUrl ∧
      tierOf e.aduPricing "2-bedroom" = some t ∧
      rentalIncome ⟨"2-bedroom", "rental", ⟨false, false, false, false⟩⟩
        (activeRegion ⟨"Lima", "PE", "Peru", true⟩) = some t.rentalEstimate := by
  obtain ⟨e, t, he, hpol, ht, hr, _⟩ := adu_default_branches_unreachable
    ⟨"Lima", "PE", "Peru", true⟩ ⟨"2-bedroom", "rental", ⟨false, false, false, false⟩⟩
    (by decide)
  exact ⟨e, t, he, hpol, ht, hr⟩

end PowerSolution
